import Mathlib

/-!
Shallow embedding of the SafeZone web repository.

Covered code:
* `server/server.js` — the persistence gateway: the `POST /api/save-alert`
  and `GET /api/alerts/recent` Express handlers over a Postgres `alerts`
  table.  The table is modelled as a list of rows in insertion order; the
  query `ORDER BY event_time DESC LIMIT 10` is modelled by a stable
  insertion sort on the `event_time` column (ISO-8601 strings, compared
  lexicographically, which agrees with chronological order) followed by
  `take 10`.  Ties are broken by insertion order (the SQL order for ties is
  store-defined; stable sort is one admissible choice).
* `src/P2.tsx` — the map page: fallback timer, MQTT close handler, the
  `Notify` alert branch of the message handler, the `items` projection and
  the `publishPTZ` control publisher.
* `src/P1.tsx` — the list page: the `status_update` branch of the `Notify`
  handler.

JavaScript numbers that the code immediately checks with `Number.isFinite`
are modelled as `Option Int` (ids) or `Option ℚ` (coordinates): `none`
stands for a missing field or a non-finite numeric conversion (`NaN`).
-/

namespace SafeZone

/-- One row of the `alerts` table
(`INSERT INTO alerts (device_id, event_time, detected_object, base64_image)`). -/
structure AlertRecord where
  device_id : Int
  event_time : String
  detected_object : String
  base64_image : String
  deriving DecidableEq

/-- The `alerts` table, rows in insertion order. -/
abbrev Store := List AlertRecord

/-- Body of `POST /api/save-alert`: `{ id, recent_obj }`.
`recent_obj = none` models an absent field (JS `!recent_obj`). -/
structure SaveReq where
  id : Int
  recent_obj : Option (List String)
  deriving DecidableEq

/-- `app.post('/api/save-alert')` from `server/server.js`.
`dbOk` models whether `pool.query` succeeds (`catch` branch → 500).
Returns the HTTP status code and the table after the request.
On success the row `(id, recent_obj[0], recent_obj[1], recent_obj[2])`
is appended. -/
def saveAlert (dbOk : Bool) (req : SaveReq) (store : Store) : Nat × Store :=
  match req.recent_obj with
  | none => (400, store)
  | some l =>
    if l.length < 3 then (400, store)
    else if dbOk then
      (200, store ++ [⟨req.id, l.getD 0 "", l.getD 1 "", l.getD 2 ""⟩])
    else (500, store)

/-- Lexicographic comparison of character lists by code point; together
with `strLe` this models the SQL ordering of the `event_time` column
(ISO-8601 timestamp strings compare lexicographically in chronological
order). -/
def charListLe : List Char → List Char → Bool
  | [], _ => true
  | _ :: _, [] => false
  | a :: as, b :: bs =>
    if a.toNat < b.toNat then true
    else if b.toNat < a.toNat then false
    else charListLe as bs

/-- Lexicographic string comparison by code point. -/
def strLe (a b : String) : Bool := charListLe a.data b.data

/-- Row order produced by `ORDER BY event_time DESC`: `a` may come before
`b` when `b`'s event time is at most `a`'s. -/
def timeGe (a b : AlertRecord) : Prop := strLe b.event_time a.event_time = true

instance : DecidableRel timeGe :=
  fun a b => (inferInstance : Decidable (strLe b.event_time a.event_time = true))

/-- `app.get('/api/alerts/recent')` from `server/server.js`.
`q` is the result of `Number(req.query.device_id)` (`none` = non-finite,
rejected with 400).  `dbOk` models whether `pool.query` succeeds.
`ORDER BY event_time DESC LIMIT 10` is modelled by a stable insertion sort
under `timeGe` followed by `take 10` (the SQL order of ties is
store-defined; stable sorting is one admissible choice).
Returns `((status, rows), table)`; the handler only reads the table. -/
def getRecentAlerts (dbOk : Bool) (q : Option Int) (store : Store) :
    (Nat × List AlertRecord) × Store :=
  match q with
  | none => ((400, []), store)
  | some d =>
    if dbOk then
      ((200, ((store.filter (fun r => r.device_id == d)).insertionSort timeGe).take 10), store)
    else ((500, []), store)

theorem charListLe_total (a b : List Char) : charListLe a b || charListLe b a := by
  induction a generalizing b with
  | nil => simp [charListLe]
  | cons x xs ih =>
    cases b with
    | nil => simp [charListLe]
    | cons y ys =>
      by_cases h1 : x.toNat < y.toNat
      · simp [charListLe, h1]
      · by_cases h2 : y.toNat < x.toNat
        · simp [charListLe, h1, h2]
        · simpa [charListLe, h1, h2] using ih ys

theorem charListLe_trans (a b c : List Char)
    (h1 : charListLe a b) (h2 : charListLe b c) : charListLe a c := by
  induction a generalizing b c with
  | nil => simp [charListLe]
  | cons x xs ih =>
    cases b with
    | nil => simp [charListLe] at h1
    | cons y ys =>
      cases c with
      | nil => simp [charListLe] at h2
      | cons z zs =>
        simp only [charListLe] at h1 h2 ⊢
        by_cases hxy : x.toNat < y.toNat
        · by_cases hyz : y.toNat < z.toNat
          · have : x.toNat < z.toNat := by omega
            simp [this]
          · by_cases hzy : z.toNat < y.toNat
            · simp [hyz, hzy] at h2
            · have : x.toNat < z.toNat := by omega
              simp [this]
        · by_cases hyx : y.toNat < x.toNat
          · simp [hxy, hyx] at h1
          · by_cases hyz : y.toNat < z.toNat
            · have : x.toNat < z.toNat := by omega
              simp [this]
            · by_cases hzy : z.toNat < y.toNat
              · simp [hyz, hzy] at h2
              · have hn1 : ¬ x.toNat < z.toNat := by omega
                have hn2 : ¬ z.toNat < x.toNat := by omega
                simp only [hxy, hyx, if_false, if_true] at h1
                simp only [hyz, hzy, if_false, if_true] at h2
                simp only [hn1, hn2, if_false, if_true]
                exact ih ys zs h1 h2

instance : IsTotal AlertRecord timeGe :=
  ⟨fun a b => by
    have h := charListLe_total b.event_time.data a.event_time.data
    rcases Bool.or_eq_true_iff.mp h with h | h
    · exact Or.inl h
    · exact Or.inr h⟩

instance : IsTrans AlertRecord timeGe :=
  ⟨fun a b c h1 h2 => charListLe_trans _ _ _ h2 h1⟩

/-- An element of `l` weakly preceded (under a total transitive decidable
relation `r`) by at most 10 elements of `l` (itself included) survives
`insertionSort` followed by `take 10`. -/
theorem mem_take_ten_insertionSort {α : Type} (r : α → α → Prop)
    [DecidableRel r] [IsTotal α r] [IsTrans α r]
    (l : List α) (x : α) (hx : x ∈ l)
    (hc : l.countP (fun y => decide (r y x)) ≤ 10) :
    x ∈ (l.insertionSort r).take 10 := by
  have hxs : x ∈ l.insertionSort r := (List.mem_insertionSort r).mpr hx
  obtain ⟨⟨i, hi⟩, hget⟩ := List.get_of_mem hxs
  have hsorted : (l.insertionSort r).Pairwise r := List.sorted_insertionSort r l
  have hxx : decide (r x x) = true := by
    rcases IsTotal.total (r := r) x x with h | h <;> simpa using h
  -- every element among the first `i+1` entries of the sorted list is `r · x`
  have hall : ∀ y ∈ (l.insertionSort r).take (i + 1), decide (r y x) = true := by
    intro y hy
    obtain ⟨⟨j, hj⟩, hgy⟩ := List.get_of_mem hy
    have hjlen : j < i + 1 := by
      have := hj
      simp only [List.length_take] at this
      omega
    have hjlt : j < (l.insertionSort r).length := by omega
    have hgy2 : (l.insertionSort r).get ⟨j, hjlt⟩ = y := by
      rw [← hgy]
      simp [List.get_take]
    rcases Nat.lt_or_ge j i with hji | hji
    · have hp := (List.pairwise_iff_get.mp hsorted) ⟨j, hjlt⟩ ⟨i, hi⟩ hji
      rw [hgy2, hget] at hp
      simpa using hp
    · have hje : j = i := by omega
      subst hje
      have : y = x := by rw [← hgy2, hget]
      rw [this]
      exact hxx
  have htklen : ((l.insertionSort r).take (i + 1)).length = i + 1 := by
    simp only [List.length_take]
    omega
  have htk : ((l.insertionSort r).take (i + 1)).countP (fun y => decide (r y x)) = i + 1 := by
    rw [List.countP_eq_length.mpr hall, htklen]
  have hsplitc : (l.insertionSort r).countP (fun y => decide (r y x)) =
      ((l.insertionSort r).take (i + 1)).countP (fun y => decide (r y x)) +
        ((l.insertionSort r).drop (i + 1)).countP (fun y => decide (r y x)) := by
    rw [← List.countP_append, List.take_append_drop]
  have hperm : (l.insertionSort r).countP (fun y => decide (r y x)) =
      l.countP (fun y => decide (r y x)) :=
    (List.perm_insertionSort r l).countP_eq _
  have hi10 : i < 10 := by omega
  have hlen10 : i < ((l.insertionSort r).take 10).length := by
    simp only [List.length_take]
    omega
  have : ((l.insertionSort r).take 10).get ⟨i, hlen10⟩ = x := by
    rw [← hget]
    simp [List.get_take]
  rw [← this]
  exact List.get_mem _ i hlen10

/-- [C3] A `saveAlert` request whose payload lacks `recent_obj` or whose
`recent_obj` has fewer than 3 elements is rejected with status 400 before
any storage attempt (for every storage-layer outcome `dbOk`), and the
store is unchanged. -/
theorem saveAlert_malformed_rejected (dbOk : Bool) (req : SaveReq) (store : Store)
    (h : req.recent_obj = none ∨ ∃ l, req.recent_obj = some l ∧ l.length < 3) :
    saveAlert dbOk req store = (400, store) := by
  rcases h with h | ⟨l, hl, hlen⟩
  · simp [saveAlert, h]
  · simp [saveAlert, hl, hlen]

/-- Witness for [C3]: the concrete malformed payloads `{id: 1}` and
`{id: 1, recent_obj: ["t", "hog"]}` are both rejected with 400 and leave a
one-row store unchanged. -/
theorem saveAlert_malformed_rejected_witness :
    saveAlert true ⟨1, none⟩ [⟨5, "t", "hog", "img"⟩] = (400, [⟨5, "t", "hog", "img"⟩])
    ∧ saveAlert true ⟨1, some ["t", "hog"]⟩ [] = (400, []) :=
  ⟨saveAlert_malformed_rejected true ⟨1, none⟩ [⟨5, "t", "hog", "img"⟩] (Or.inl rfl),
   saveAlert_malformed_rejected true ⟨1, some ["t", "hog"]⟩ []
     (Or.inr ⟨["t", "hog"], rfl, by decide⟩)⟩

/-- [C4] `getRecentAlerts` never mutates the store; a non-finite
`device_id` is rejected with 400; on success (finite id, storage up) it
returns status 200 and at most 10 records, all for the requested device,
ordered by event time descending. -/
theorem getRecentAlerts_spec (dbOk : Bool) (q : Option Int) (store : Store) :
    (getRecentAlerts dbOk q store).2 = store
    ∧ (getRecentAlerts dbOk none store).1 = (400, [])
    ∧ ∀ d : Int, q = some d → dbOk = true →
        (getRecentAlerts dbOk q store).1.1 = 200
        ∧ (getRecentAlerts dbOk q store).1.2.length ≤ 10
        ∧ (∀ r ∈ (getRecentAlerts dbOk q store).1.2, r.device_id = d)
        ∧ (getRecentAlerts dbOk q store).1.2.Pairwise timeGe := by
  refine ⟨?_, by simp [getRecentAlerts], ?_⟩
  · cases q with
    | none => simp [getRecentAlerts]
    | some d => cases dbOk <;> simp [getRecentAlerts]
  · intro d hq hdb
    subst hq
    subst hdb
    have hrows : (getRecentAlerts true (some d) store).1.2 =
        ((store.filter (fun r => r.device_id == d)).insertionSort timeGe).take 10 := rfl
    refine ⟨rfl, ?_, ?_, ?_⟩
    · rw [hrows]
      exact List.length_take_le 10 _
    · rw [hrows]
      intro r hr
      have h1 : r ∈ (store.filter (fun r => r.device_id == d)).insertionSort timeGe :=
        List.mem_of_mem_take hr
      have h2 : r ∈ store.filter (fun r => r.device_id == d) :=
        (List.mem_insertionSort timeGe).mp h1
      have := List.of_mem_filter h2
      simpa using this
    · rw [hrows]
      have hs : ((store.filter (fun r => r.device_id == d)).insertionSort timeGe).Pairwise
          timeGe :=
        List.sorted_insertionSort timeGe _
      exact hs.sublist (List.take_sublist 10 _)

/-- Witness for [C4]: on a concrete two-row store, the success branch for
device 5 returns 200 with exactly the device-5 row, and the store is
returned unchanged. -/
theorem getRecentAlerts_spec_witness :
    (getRecentAlerts true (some 5) [⟨5, "t1", "hog", "i1"⟩, ⟨6, "t2", "hog", "i2"⟩]).2 =
      [⟨5, "t1", "hog", "i1"⟩, ⟨6, "t2", "hog", "i2"⟩]
    ∧ (getRecentAlerts true (some 5)
        [⟨5, "t1", "hog", "i1"⟩, ⟨6, "t2", "hog", "i2"⟩]).1.1 = 200
    ∧ ∀ r ∈ (getRecentAlerts true (some 5)
        [⟨5, "t1", "hog", "i1"⟩, ⟨6, "t2", "hog", "i2"⟩]).1.2, r.device_id = 5 := by
  have h := getRecentAlerts_spec true (some 5)
    [⟨5, "t1", "hog", "i1"⟩, ⟨6, "t2", "hog", "i2"⟩]
  exact ⟨h.1, (h.2.2 5 rfl rfl).1, (h.2.2 5 rfl rfl).2.2.1⟩

/-- [C2 amended] `saveAlert` followed by `getRecentAlerts`: provided at
most 9 of the device's already-stored records carry an event time at or
after the submitted one, a valid submission (3-element tuple, numeric id)
is accepted with 200 and the exact submitted record appears among the (at
most 10) records returned for that device — hence at position ≤ 10. -/
theorem saveAlert_getRecentAlerts_roundtrip (store : Store) (id : Int) (t o img : String)
    (hc : (store.filter (fun r => r.device_id == id)).countP
        (fun r => strLe t r.event_time) ≤ 9) :
    (saveAlert true ⟨id, some [t, o, img]⟩ store).1 = 200
    ∧ (⟨id, t, o, img⟩ : AlertRecord) ∈
        (getRecentAlerts true (some id)
          (saveAlert true ⟨id, some [t, o, img]⟩ store).2).1.2 := by
  have hsave : saveAlert true ⟨id, some [t, o, img]⟩ store =
      (200, store ++ [⟨id, t, o, img⟩]) := rfl
  refine ⟨by rw [hsave], ?_⟩
  rw [hsave]
  have hrows : (getRecentAlerts true (some id)
        (store ++ [(⟨id, t, o, img⟩ : AlertRecord)])).1.2 =
      (((store ++ [(⟨id, t, o, img⟩ : AlertRecord)]).filter
        (fun r => r.device_id == id)).insertionSort timeGe).take 10 := rfl
  rw [hrows]
  have hfil : (store ++ [(⟨id, t, o, img⟩ : AlertRecord)]).filter
      (fun r => r.device_id == id) =
      store.filter (fun r => r.device_id == id) ++ [⟨id, t, o, img⟩] := by
    rw [List.filter_append]
    simp
  apply mem_take_ten_insertionSort
  · rw [hfil]
    exact List.mem_append_right _ (List.mem_singleton_self _)
  · rw [hfil, List.countP_append]
    have h1 : List.countP (fun y => decide (timeGe y ⟨id, t, o, img⟩))
        [(⟨id, t, o, img⟩ : AlertRecord)] = 1 := by
      have hxx : strLe t t = true := by
        have h := charListLe_total t.data t.data
        simpa [strLe] using h
      simp only [List.countP_cons, List.countP_nil]
      simp [timeGe, strLe] at hxx ⊢
      simp [hxx]
    have h2 : List.countP (fun y => decide (timeGe y ⟨id, t, o, img⟩))
        (store.filter (fun r => r.device_id == id)) ≤ 9 := by
      have : (fun y : AlertRecord => decide (timeGe y ⟨id, t, o, img⟩)) =
          (fun r : AlertRecord => strLe t r.event_time) := by
        funext y
        simp [timeGe]
      rw [this]
      exact hc
    omega

/-- Witness for [C2 amended]: on the empty store, saving
`{id: 2, recent_obj: ["2025-05-01T23:21:52", "hog", "url"]}` succeeds and
the record is returned by `getRecentAlerts` for device 2. -/
theorem saveAlert_getRecentAlerts_roundtrip_witness :
    (([] : Store).filter (fun r => r.device_id == 2)).countP
        (fun r => strLe "2025-05-01T23:21:52" r.event_time) ≤ 9
    ∧ (saveAlert true ⟨2, some ["2025-05-01T23:21:52", "hog", "url"]⟩ []).1 = 200
    ∧ (⟨2, "2025-05-01T23:21:52", "hog", "url"⟩ : AlertRecord) ∈
        (getRecentAlerts true (some 2)
          (saveAlert true ⟨2, some ["2025-05-01T23:21:52", "hog", "url"]⟩ []).2).1.2 :=
  ⟨by decide,
   (saveAlert_getRecentAlerts_roundtrip [] 2 "2025-05-01T23:21:52" "hog" "url" (by decide)).1,
   (saveAlert_getRecentAlerts_roundtrip [] 2 "2025-05-01T23:21:52" "hog" "url" (by decide)).2⟩

/-- A store holding ten device-1 records whose event time is strictly
newer than `2020-01-01T00:00:00`. -/
def tenNewerStore : Store :=
  List.replicate 10 ⟨1, "2025-06-01T00:00:00", "hog", "i1"⟩

/-- [C2 counterexample] The claim fails as stated: on a store already
holding ten strictly newer records for device 1, a valid submission for
device 1 is accepted (200) but `getRecentAlerts 1` does not return any
record matching the submission — `ORDER BY event_time DESC LIMIT 10` cuts
it off. -/
theorem saveAlert_getRecentAlerts_counterexample :
    (saveAlert true ⟨1, some ["2020-01-01T00:00:00", "boar", "i2"]⟩ tenNewerStore).1 = 200
    ∧ ¬ ∃ r ∈ (getRecentAlerts true (some 1)
        (saveAlert true ⟨1, some ["2020-01-01T00:00:00", "boar", "i2"]⟩ tenNewerStore).2).1.2,
        r.event_time = "2020-01-01T00:00:00" ∧ r.detected_object = "boar"
          ∧ r.base64_image = "i2" := by
  constructor
  · rfl
  · decide

/-- Raw device record as delivered by the broker (`RawDevice` in
`src/P2.tsx`).  `lat`/`lng` model the result of the later `Number(...)`
conversion of the broker strings: `none` stands for a non-finite
conversion, `some q` for the finite value `q`. -/
structure RawDevice where
  battery : String
  temp : String
  humi : String
  status : String
  lat : Option ℚ
  lng : Option ℚ
  recent_obj : Option (List String)
  deriving DecidableEq

/-- The broker snapshot object `Record<string, RawDevice>`; JavaScript
object keys are unique and the code immediately converts them with
`Number(key)`, so the registry is an association list over integer ids. -/
abbrev RawDeviceMap := List (Int × RawDevice)

/-- The static fallback dataset `FALLBACK_RAW` from `src/P2.tsx`. -/
def FALLBACK_RAW : RawDeviceMap :=
  [ (1, { battery := "40", temp := "24.6", humi := "70", status := "GOOD",
          lat := some 37.868770, lng := some 127.738360,
          recent_obj := some ["2025-05-01T23:21:52", "hog",
            "https://m.health.chosun.com/site/data/img_dir/2022/05/24/2022052402229_0.jpg"] }),
    (2, { battery := "40", temp := "24.6", humi := "70", status := "BAD",
          lat := some 37.869436, lng := some 127.742939,
          recent_obj := some ["2025-05-01T23:21:52", "hog",
            "https://thumb.mt.co.kr/06/2024/02/2024021621113371189_1.jpg/dims/optimize/"] }),
    (3, { battery := "40", temp := "24.6", humi := "70", status := "OFF",
          lat := some 37.869562, lng := some 127.742999,
          recent_obj := some ["2025-05-01T23:21:52", "hog",
            "https://newsimg.hankookilbo.com/2020/04/24/202004241244319174_1.jpg"] }),
    (4, { battery := "20", temp := "24.6", humi := "70", status := "BAD",
          lat := some 37.869501, lng := some 127.743001,
          recent_obj := some ["2025-05-01T23:21:52", "hog",
            "https://newsimg.hankookilbo.com/2020/04/24/202004241244319174_1.jpg"] }) ]

/-- `mapStatus` (identical in `src/P1.tsx` and `src/P2.tsx`): status
enumeration to the display tuple `(label, indicator colour)`; unknown
values fall through to the `OFF` branch. -/
def mapStatus (s : String) : String × String :=
  if s = "GOOD" then ("정상", "green")
  else if s = "BAD" then ("고장", "red")
  else ("꺼짐", "gray")

/-- Presentation-ready map item (`Item` in `src/P2.tsx`). -/
structure Item where
  id : Int
  name : String
  status : String
  statusDot : String
  battery : String
  lat : ℚ
  lng : ℚ
  recent : Option (String × String × String)
  deriving DecidableEq

/-- The `recent` projection inside the `items` memo:
`Array.isArray(d.recent_obj) && d.recent_obj.length >= 3 ? {time, target, image} : null`. -/
def recentOf (d : RawDevice) : Option (String × String × String) :=
  match d.recent_obj with
  | some l => if 3 ≤ l.length then some (l.getD 0 "", l.getD 1 "", l.getD 2 "") else none
  | none => none

/-- Final `out.sort((a, b) => a.id - b.id)` order of the map items. -/
def idLe (a b : Item) : Prop := a.id ≤ b.id

instance : DecidableRel idLe := fun a b => (inferInstance : Decidable (a.id ≤ b.id))

/-- The `items` `useMemo` of `src/P2.tsx`: for each registry key in the
user list with finite coordinates, build the presentation item; then sort
by id. -/
def items (rawMap : RawDeviceMap) (idSet : List Int) : List Item :=
  (rawMap.filterMap (fun kd =>
    if kd.1 ∈ idSet then
      match kd.2.lat, kd.2.lng with
      | some la, some ln =>
        some { id := kd.1, name := toString kd.1 ++ "번 말뚝",
               status := (mapStatus kd.2.status).1, statusDot := (mapStatus kd.2.status).2,
               battery := kd.2.battery, lat := la, lng := ln, recent := recentOf kd.2 }
      | _, _ => none
    else none)).insertionSort idLe

/-- [C5] The map's visible item set is exactly the intersection of
registry keys and user-list ids minus devices with a non-finite
coordinate, and on the concrete example registry `{1,2,3}` with user list
`{1,3,4}` the visible id sequence is `[1, 3]` (device 2 is not in the
user list, device 4 is not in the registry). -/
theorem items_visible_set :
    (∀ (raw : RawDeviceMap) (ids : List Int) (n : Int),
      (∃ it ∈ items raw ids, it.id = n) ↔
        (∃ d, (n, d) ∈ raw ∧ n ∈ ids ∧ d.lat ≠ none ∧ d.lng ≠ none))
    ∧ (items (FALLBACK_RAW.take 3) [1, 3, 4]).map (fun it => it.id) = [1, 3] := by
  constructor
  · intro raw ids n
    constructor
    · rintro ⟨it, hmem, hid⟩
      have hmem2 := (List.mem_insertionSort idLe).mp hmem
      obtain ⟨kd, hkd, hf⟩ := List.mem_filterMap.mp hmem2
      by_cases hin : kd.1 ∈ ids
      · rcases hla : kd.2.lat with _ | la
        · simp [hin, hla] at hf
        · rcases hln : kd.2.lng with _ | ln
          · simp [hin, hla, hln] at hf
          · simp only [hin, if_true, hla, hln] at hf
            have hit := Option.some.inj hf
            have hkid : kd.1 = n := by
              rw [← hid, ← hit]
            refine ⟨kd.2, ?_, ?_, ?_, ?_⟩
            · rw [← hkid]
              simpa using hkd
            · rwa [← hkid]
            · rw [hla]
              simp
            · rw [hln]
              simp
      · simp [hin] at hf
    · rintro ⟨d, hd, hin, hla, hln⟩
      rcases hla2 : d.lat with _ | la
      · exact absurd hla2 hla
      rcases hln2 : d.lng with _ | ln
      · exact absurd hln2 hln
      refine ⟨{ id := n, name := toString n ++ "번 말뚝",
                status := (mapStatus d.status).1, statusDot := (mapStatus d.status).2,
                battery := d.battery, lat := la, lng := ln, recent := recentOf d },
              ?_, rfl⟩
      apply (List.mem_insertionSort idLe).mpr
      apply List.mem_filterMap.mpr
      exact ⟨(n, d), hd, by simp [hin, hla2, hln2]⟩
  · decide

/-- A `Notify` message as consumed by the map page (`src/P2.tsx`).
`id`/`idx` model `Number(msg.id)` / `Number(msg.idx)`: `none` stands for
an absent field or a non-finite conversion. -/
structure NotifyMsg where
  cmd : String
  id : Option Int
  idx : Option Int
  recent_obj : Option (List String)
  deriving DecidableEq

/-- Body sent to `POST /api/save-alert` by the map page
(`alertPayload` in `src/P2.tsx`). -/
structure AlertPayload where
  cmd : String
  id : Int
  recent_obj : List String
  deriving DecidableEq

/-- The `setRawMap` functional update of the alert branch: replace only
the named device's `recent_obj`; if the key is absent the registry is
returned unchanged (`if (!cur) return prev`). -/
def updateRecent (raw : RawDeviceMap) (n : Int) (arr : List String) : RawDeviceMap :=
  raw.map (fun kd => if kd.1 = n then (kd.1, { kd.2 with recent_obj := some arr }) else kd)

/-- Observable outcome of one run of the map page's `Notify` handler. -/
structure NotifyResult where
  rawMap : RawDeviceMap
  alerted : List Int
  posted : Option AlertPayload
  toasted : Bool
  gatewayLogOk : Option Bool
  deriving DecidableEq

/-- `setAlertedIds` update: `Set.add` on the alerted-id set (the set is
modelled as a duplicate-free list). -/
def addAlerted (al : List Int) (n : Int) : List Int :=
  if n ∈ al then al else al ++ [n]

/-- The `alert` branch of `client.on("message")` in `src/P2.tsx`:
validate (`cmd === "alert"`, finite `Number(msg.id ?? msg.idx)`,
`recent_obj` an array of length ≥ 3, truncated to its first 3 entries as
strings), then fire the save-alert POST, update the registry's
`recent_obj` (presence-guarded), add the id to the alerted set, and show
the toast.  `gatewayOk` is the outcome of the asynchronous `fetch`; its
continuation only logs, recorded in `gatewayLogOk`. -/
def handleNotify (gatewayOk : Bool) (raw : RawDeviceMap) (al : List Int)
    (msg : NotifyMsg) : NotifyResult :=
  if msg.cmd ≠ "alert" then ⟨raw, al, none, false, none⟩
  else
    match msg.id.orElse (fun _ => msg.idx) with
    | none => ⟨raw, al, none, false, none⟩
    | some n =>
      match msg.recent_obj with
      | none => ⟨raw, al, none, false, none⟩
      | some l =>
        if 3 ≤ l.length then
          ⟨updateRecent raw n (l.take 3), addAlerted al n,
           some ⟨msg.cmd, n, l.take 3⟩, true, some gatewayOk⟩
        else ⟨raw, al, none, false, none⟩

theorem mem_addAlerted (al : List Int) (n : Int) : n ∈ addAlerted al n := by
  unfold addAlerted
  by_cases h : n ∈ al
  · simpa [h]
  · simp [h]

/-- [C1] For every alert notification with a finite numeric id and a
detection tuple of ≥ 3 entries, the map-context handler adds the device
to the alerted set, emits the toast, performs the registry update and
issues the POST — and each of these outcomes is identical whether the
asynchronous gateway call succeeds (`gatewayOk = true`) or fails: the
gateway outcome only reaches the console log. -/
theorem handleNotify_alert_robust (gatewayOk : Bool) (raw : RawDeviceMap)
    (al : List Int) (msg : NotifyMsg) (n : Int) (l : List String)
    (hcmd : msg.cmd = "alert")
    (hid : msg.id.orElse (fun _ => msg.idx) = some n)
    (hro : msg.recent_obj = some l) (hlen : 3 ≤ l.length) :
    n ∈ (handleNotify gatewayOk raw al msg).alerted
    ∧ (handleNotify gatewayOk raw al msg).toasted = true
    ∧ (handleNotify gatewayOk raw al msg).rawMap = updateRecent raw n (l.take 3)
    ∧ (handleNotify gatewayOk raw al msg).posted = some ⟨"alert", n, l.take 3⟩
    ∧ (handleNotify gatewayOk raw al msg).rawMap = (handleNotify true raw al msg).rawMap
    ∧ (handleNotify gatewayOk raw al msg).alerted = (handleNotify true raw al msg).alerted
    ∧ (handleNotify gatewayOk raw al msg).toasted = (handleNotify true raw al msg).toasted
    ∧ (handleNotify gatewayOk raw al msg).posted = (handleNotify true raw al msg).posted := by
  have hres : handleNotify gatewayOk raw al msg =
      ⟨updateRecent raw n (l.take 3), addAlerted al n,
       some ⟨"alert", n, l.take 3⟩, true, some gatewayOk⟩ := by
    unfold handleNotify
    rw [hid, hro]
    simp [hcmd, hlen]
  have hres2 : handleNotify true raw al msg =
      ⟨updateRecent raw n (l.take 3), addAlerted al n,
       some ⟨"alert", n, l.take 3⟩, true, some true⟩ := by
    unfold handleNotify
    rw [hid, hro]
    simp [hcmd, hlen]
  rw [hres, hres2]
  exact ⟨mem_addAlerted al n, rfl, rfl, rfl, rfl, rfl, rfl, rfl⟩

/-- A concrete healthy device record used by witness instantiations. -/
def sampleDevice : RawDevice :=
  { battery := "40", temp := "24.6", humi := "70", status := "GOOD",
    lat := some 37, lng := some 127, recent_obj := none }

/-- A concrete valid alert notification for device 2, used by witness
instantiations. -/
def sampleAlertMsg : NotifyMsg :=
  ⟨"alert", some 2, none, some ["2025-05-01T23:21:52", "hog", "url"]⟩

/-- Witness for [C1]: the end-to-end alert
`{cmd: "alert", id: 2, recent_obj: ["2025-05-01T23:21:52", "hog", "url"]}`
on a one-device registry, with the gateway failing
(`gatewayOk = false`): device 2 is alerted, the toast fires, and the
POST is still issued. -/
theorem handleNotify_alert_robust_witness :
    2 ∈ (handleNotify false [(2, sampleDevice)] [] sampleAlertMsg).alerted
    ∧ (handleNotify false [(2, sampleDevice)] [] sampleAlertMsg).toasted = true
    ∧ (handleNotify false [(2, sampleDevice)] [] sampleAlertMsg).posted =
        some ⟨"alert", 2, ["2025-05-01T23:21:52", "hog", "url"]⟩ := by
  have h := handleNotify_alert_robust false [(2, sampleDevice)] [] sampleAlertMsg
    2 ["2025-05-01T23:21:52", "hog", "url"] rfl rfl rfl (by decide)
  exact ⟨h.1, h.2.1, h.2.2.2.1⟩

theorem updateRecent_absent (raw : RawDeviceMap) (n : Int) (arr : List String)
    (h : n ∉ raw.map Prod.fst) : updateRecent raw n arr = raw := by
  induction raw with
  | nil => rfl
  | cons kd rest ih =>
    simp only [List.map_cons, List.mem_cons] at h
    push_neg at h
    have hne : kd.1 ≠ n := fun he => h.1 he.symm
    have ht := ih h.2
    unfold updateRecent at ht ⊢
    simp only [List.map_cons]
    rw [if_neg hne, ht]

/-- [C10] A valid alert notification naming a device absent from the
map-context registry leaves the registry unchanged, yet the POST to
`/api/save-alert` is still issued, the device id still joins the alerted
(red-marker) set and the toast is still emitted. -/
theorem handleNotify_unknown_device (gatewayOk : Bool) (raw : RawDeviceMap)
    (al : List Int) (msg : NotifyMsg) (n : Int) (l : List String)
    (hcmd : msg.cmd = "alert")
    (hid : msg.id.orElse (fun _ => msg.idx) = some n)
    (hro : msg.recent_obj = some l) (hlen : 3 ≤ l.length)
    (habs : n ∉ raw.map Prod.fst) :
    (handleNotify gatewayOk raw al msg).rawMap = raw
    ∧ (handleNotify gatewayOk raw al msg).posted = some ⟨"alert", n, l.take 3⟩
    ∧ n ∈ (handleNotify gatewayOk raw al msg).alerted
    ∧ (handleNotify gatewayOk raw al msg).toasted = true := by
  have h := handleNotify_alert_robust gatewayOk raw al msg n l hcmd hid hro hlen
  refine ⟨?_, h.2.2.2.1, h.1, h.2.1⟩
  rw [h.2.2.1]
  exact updateRecent_absent raw n (l.take 3) habs

/-- Witness for [C10]: the alert for device 2 arriving while the registry
only holds device 9: registry unchanged, POST issued, device 2 alerted,
toast shown. -/
theorem handleNotify_unknown_device_witness :
    (handleNotify true [(9, sampleDevice)] [] sampleAlertMsg).rawMap = [(9, sampleDevice)]
    ∧ (handleNotify true [(9, sampleDevice)] [] sampleAlertMsg).posted =
        some ⟨"alert", 2, ["2025-05-01T23:21:52", "hog", "url"]⟩
    ∧ 2 ∈ (handleNotify true [(9, sampleDevice)] [] sampleAlertMsg).alerted
    ∧ (handleNotify true [(9, sampleDevice)] [] sampleAlertMsg).toasted = true :=
  handleNotify_unknown_device true [(9, sampleDevice)] [] sampleAlertMsg
    2 ["2025-05-01T23:21:52", "hog", "url"] rfl rfl rfl (by decide) (by decide)

/-- Map-page session/component state (`src/P2.tsx`): the registry
(`rawMap`), the registry value captured by the effect closure at session
start (`sessionRaw`, used by the `close` handler's outer emptiness
check), the alerted-id set, the `didConnect` flag, the `connected` state,
whether the 3-second fallback timer is still pending, whether the MQTT
client handle exists (`clientRef.current !== null`), the selected marker
id (`currentId`) and the user device list (`ids`). -/
structure P2St where
  rawMap : RawDeviceMap
  sessionRaw : RawDeviceMap
  alerted : List Int
  didConnect : Bool
  connected : Bool
  timerActive : Bool
  clientPresent : Bool
  currentId : Option Int
  ids : List Int
  deriving DecidableEq

/-- Mount-time state of the map page: with a non-empty user list the
effect opens the client and arms the fallback timer; with an empty list
it only clears the registry and returns early. -/
def initP2 (ids : List Int) : P2St :=
  if ids.isEmpty then
    ⟨[], [], [], false, false, false, false, none, ids⟩
  else
    ⟨[], [], [], false, false, true, true, none, ids⟩

/-- Session events of the map page: the fallback timer firing, the MQTT
`connect` event, the MQTT `close` event, and a marker click. -/
inductive P2Ev where
  | timerFires
  | connectEv
  | closeEv
  | markerClick (n : Int)
  deriving DecidableEq

/-- One step of the map-page session machine, from `src/P2.tsx`:
* `timerFires` — the 3s fallback timer: if still armed and no connect has
  happened, `setRawMap(FALLBACK_RAW)` and `setConnected(false)`;
* `connectEv` — `client.on("connect")`: clear the timer, set flags;
* `closeEv` — `client.on("close")`: `setConnected(false)`, and if no
  connect ever succeeded and the closed-over registry is empty,
  `setRawMap(prev => prev.length ? prev : FALLBACK_RAW)`;
* `markerClick n` — clicking a rendered marker: select the device and
  remove it from the alerted set. -/
def stepP2 (st : P2St) (ev : P2Ev) : P2St :=
  match ev with
  | .timerFires =>
    if st.timerActive then
      if st.didConnect then { st with timerActive := false }
      else { st with timerActive := false, connected := false, rawMap := FALLBACK_RAW }
    else st
  | .connectEv =>
    { st with didConnect := true, connected := true, timerActive := false }
  | .closeEv =>
    let newRaw :=
      if ¬ st.didConnect ∧ st.sessionRaw.isEmpty then
        (if st.rawMap.isEmpty then FALLBACK_RAW else st.rawMap)
      else st.rawMap
    { st with connected := false, rawMap := newRaw }
  | .markerClick n =>
    if ∃ it ∈ items st.rawMap st.ids, it.id = n then
      { st with currentId := some n, alerted := st.alerted.erase n }
    else st

/-- [C6] If the fallback timer fires while still armed and no `connect`
event has occurred (no `Connected` within the timeout window), the
registry becomes exactly the static fallback dataset. -/
theorem fallback_on_timeout (st : P2St)
    (htimer : st.timerActive = true) (hconn : st.didConnect = false) :
    (stepP2 st P2Ev.timerFires).rawMap = FALLBACK_RAW := by
  simp [stepP2, htimer, hconn]

/-- Witness for [C6]: from the freshly mounted state with user list
`[1]`, the timer firing seeds the registry with the fallback dataset. -/
theorem fallback_on_timeout_witness :
    (stepP2 (initP2 [1]) P2Ev.timerFires).rawMap = FALLBACK_RAW :=
  fallback_on_timeout (initP2 [1]) rfl rfl

/-- [C7] The `close` handler never overwrites a non-empty registry: after
any `close` event the registry is either unchanged or it was empty and
became exactly the static fallback dataset. -/
theorem close_never_overwrites (st : P2St) :
    (stepP2 st P2Ev.closeEv).rawMap = st.rawMap
    ∨ (st.rawMap = [] ∧ (stepP2 st P2Ev.closeEv).rawMap = FALLBACK_RAW) := by
  simp only [stepP2]
  by_cases hg : ¬ st.didConnect ∧ st.sessionRaw.isEmpty
  · by_cases he : st.rawMap.isEmpty
    · right
      exact ⟨List.isEmpty_iff.mp he, by simp [hg, he]⟩
    · left
      simp [hg, he]
  · left
    simp only [if_neg hg]

/-- PTZ pan direction. -/
inductive PanDir where
  | left
  | right
  deriving DecidableEq

/-- PTZ press phase: button press (`start`) or release (`stop`). -/
inductive PanPhase where
  | start
  | stop
  deriving DecidableEq

/-- Example user UUID constant from `src/P2.tsx`. -/
def USER_UUID : String := "AA-BB-CC-DD-EE-FF"

/-- Body of a `CONTROL/device/{id}` publication (the volatile
`timestamp` field, wall-clock `HH:MM:SS`, is omitted from the model). -/
structure ControlMsg where
  user : String
  commend : String
  id : Int
  deriving DecidableEq

/-- `publishPTZ` from `src/P2.tsx`: `if (!id || !client) return;` —
publishes only when `currentId` is a non-zero id (JavaScript `!0` is
`true`) and the client handle exists; `commend` is the direction on
`start` and `"stop"` on `stop`.  The `connected` state is not consulted.
Returns the published message, or `none` when the guard returns early. -/
def publishPTZ (st : P2St) (dir : PanDir) (phase : PanPhase) : Option ControlMsg :=
  match st.currentId with
  | none => none
  | some i =>
    if i = 0 then none
    else if ¬ st.clientPresent then none
    else
      some ⟨USER_UUID,
            (if phase = PanPhase.stop then "stop"
             else match dir with
                  | PanDir.left => "left"
                  | PanDir.right => "right"), i⟩

/-- [C9 counterexample] The claim "published only when a session is
connected" fails: in the reachable state obtained by mounting with user
list `[1]`, letting the connect timeout fire (fallback data, never
connected) and clicking marker 1, a pan-left press is published even
though `connected = false` (the guard checks only the client handle and
the selected id). -/
theorem publishPTZ_counterexample :
    (stepP2 (stepP2 (initP2 [1]) P2Ev.timerFires) (P2Ev.markerClick 1)).connected = false
    ∧ (stepP2 (stepP2 (initP2 [1]) P2Ev.timerFires) (P2Ev.markerClick 1)).didConnect = false
    ∧ (publishPTZ (stepP2 (stepP2 (initP2 [1]) P2Ev.timerFires) (P2Ev.markerClick 1))
        PanDir.left PanPhase.start).isSome = true := by
  refine ⟨?_, ?_, ?_⟩ <;> decide

/-- [C9 amended] An outbound PTZ command is published exactly when the
client handle exists and a device with non-zero id is selected (the
`connected` flag is not consulted); under that guard every individual
start/stop press in a sequence yields its own publication with the
matching `commend` — no coalescing or debouncing — and no acknowledgement
is consumed (the result of `publish` is ignored by the handler). -/
theorem publishPTZ_spec (st : P2St) (dir : PanDir) (phase : PanPhase) :
    ((publishPTZ st dir phase).isSome = true ↔
      (st.clientPresent = true ∧ ∃ i, st.currentId = some i ∧ i ≠ 0))
    ∧ (∀ (i : Int) (presses : List (PanDir × PanPhase)),
        st.clientPresent = true → st.currentId = some i → i ≠ 0 →
        (presses.filterMap (fun pr => publishPTZ st pr.1 pr.2)).length = presses.length
        ∧ ∀ pr ∈ presses, publishPTZ st pr.1 pr.2 =
            some ⟨USER_UUID,
                  (if pr.2 = PanPhase.stop then "stop"
                   else match pr.1 with
                        | PanDir.left => "left"
                        | PanDir.right => "right"), i⟩) := by
  have hsome : ∀ (d : PanDir) (p : PanPhase) (i : Int),
      st.clientPresent = true → st.currentId = some i → i ≠ 0 →
      publishPTZ st d p =
        some ⟨USER_UUID,
              (if p = PanPhase.stop then "stop"
               else match d with
                    | PanDir.left => "left"
                    | PanDir.right => "right"), i⟩ := by
    intro d p i hcl hcur hnz
    unfold publishPTZ
    rw [hcur]
    simp [hnz, hcl]
  constructor
  · constructor
    · intro h
      unfold publishPTZ at h
      rcases hcur : st.currentId with _ | i
      · rw [hcur] at h
        simp at h
      · rw [hcur] at h
        by_cases hz : i = 0
        · simp [hz] at h
        · by_cases hcl : st.clientPresent
          · exact ⟨hcl, i, rfl, hz⟩
          · simp [hz, hcl] at h
    · rintro ⟨hcl, i, hcur, hnz⟩
      rw [hsome dir phase i hcl hcur hnz]
      rfl
  · intro i presses hcl hcur hnz
    constructor
    · induction presses with
      | nil => rfl
      | cons pr rest ih =>
        simp only [List.filterMap_cons, hsome pr.1 pr.2 i hcl hcur hnz]
        simp only [List.length_cons]
        rw [ih]
    · intro pr _
      exact hsome pr.1 pr.2 i hcl hcur hnz

/-- Witness for [C9 amended]: with the client open and device 5 selected,
a rapid left-start/left-stop/right-start sequence produces three distinct
publications, one per press. -/
theorem publishPTZ_spec_witness :
    (([(PanDir.left, PanPhase.start), (PanDir.left, PanPhase.stop),
       (PanDir.right, PanPhase.start)].filterMap
      (fun pr => publishPTZ ⟨[], [], [], true, true, false, true, some 5, [5]⟩ pr.1 pr.2)).length = 3
    ∧ publishPTZ ⟨[], [], [], true, true, false, true, some 5, [5]⟩ PanDir.left PanPhase.stop =
        some ⟨USER_UUID, "stop", 5⟩) := by
  have h := (publishPTZ_spec ⟨[], [], [], true, true, false, true, some 5, [5]⟩
      PanDir.left PanPhase.start).2 5
      [(PanDir.left, PanPhase.start), (PanDir.left, PanPhase.stop),
       (PanDir.right, PanPhase.start)] rfl rfl (by decide)
  refine ⟨h.1, ?_⟩
  have h2 := h.2 (PanDir.left, PanPhase.stop) (by decide)
  simpa using h2

/-- A row of the P1 device list (`Item` in `src/P1.tsx`; the optional
coordinate fields are unused in the list context — the source comments
them as not used — and are omitted). -/
structure P1Item where
  id : Int
  name : String
  status : String
  statusDot : String
  battery : String
  deriving DecidableEq

/-- The `status_update` branch of the P1 `Notify` handler
(`src/P1.tsx`):
`setItems(prev => prev.map(it => it.id === idx ? {...it, status, statusDot: dot} : it))`
— only the matching device's status label and indicator dot are
replaced. -/
def handleStatusUpdate (idx : Int) (s : String) (l : List P1Item) : List P1Item :=
  l.map (fun it =>
    if it.id = idx then
      { it with status := (mapStatus s).1, statusDot := (mapStatus s).2 }
    else it)

/-- [C8] A targeted status update is a frame-preserving point mutation:
if no list entry carries the named id the list is unchanged (no implicit
creation); the list length is preserved; and position by position, id,
name and battery are always untouched, a non-matching entry is untouched
entirely, and a matching entry gets exactly the display tuple of the new
status. -/
theorem handleStatusUpdate_frame (idx : Int) (s : String) (l : List P1Item) :
    ((∀ it ∈ l, it.id ≠ idx) → handleStatusUpdate idx s l = l)
    ∧ (handleStatusUpdate idx s l).length = l.length
    ∧ ∀ (i : Nat) (h1 : i < (handleStatusUpdate idx s l).length) (h2 : i < l.length),
        ((handleStatusUpdate idx s l).get ⟨i, h1⟩).id = (l.get ⟨i, h2⟩).id
        ∧ ((handleStatusUpdate idx s l).get ⟨i, h1⟩).name = (l.get ⟨i, h2⟩).name
        ∧ ((handleStatusUpdate idx s l).get ⟨i, h1⟩).battery = (l.get ⟨i, h2⟩).battery
        ∧ ((l.get ⟨i, h2⟩).id ≠ idx →
            (handleStatusUpdate idx s l).get ⟨i, h1⟩ = l.get ⟨i, h2⟩)
        ∧ ((l.get ⟨i, h2⟩).id = idx →
            ((handleStatusUpdate idx s l).get ⟨i, h1⟩).status = (mapStatus s).1
            ∧ ((handleStatusUpdate idx s l).get ⟨i, h1⟩).statusDot = (mapStatus s).2) := by
  refine ⟨?_, by simp [handleStatusUpdate], ?_⟩
  · intro hno
    unfold handleStatusUpdate
    have hcong : ∀ it ∈ l,
        (if it.id = idx then
          ({ it with status := (mapStatus s).1, statusDot := (mapStatus s).2 } : P1Item)
         else it) = id it := by
      intro it hit
      simp [hno it hit]
    rw [List.map_congr_left hcong, List.map_id]
  · intro i h1 h2
    have hget : (handleStatusUpdate idx s l).get ⟨i, h1⟩ =
        (if (l.get ⟨i, h2⟩).id = idx then
          { l.get ⟨i, h2⟩ with status := (mapStatus s).1, statusDot := (mapStatus s).2 }
         else l.get ⟨i, h2⟩) := by
      unfold handleStatusUpdate
      simp [List.getElem_map]
    by_cases hm : (l.get ⟨i, h2⟩).id = idx
    · rw [hget, if_pos hm]
      exact ⟨rfl, rfl, rfl, fun hc => absurd hm hc, fun _ => ⟨rfl, rfl⟩⟩
    · rw [hget, if_neg hm]
      exact ⟨rfl, rfl, rfl, fun _ => rfl, fun hc => absurd hc hm⟩

/-- Concrete two-row device list used by the [C8] witness. -/
def sampleP1List : List P1Item :=
  [⟨2, "1번 말뚝", "정상", "green", "40"⟩, ⟨5, "2번 말뚝", "정상", "green", "77"⟩]

/-- Witness for [C8]: a status update for absent id 7 leaves the concrete
list unchanged, and a `BAD` update for present id 5 recolours entry 1 to
the `BAD` display tuple while its battery stays `"77"`. -/
theorem handleStatusUpdate_frame_witness :
    handleStatusUpdate 7 "BAD" sampleP1List = sampleP1List
    ∧ ((handleStatusUpdate 5 "BAD" sampleP1List).get ⟨1, by decide⟩).statusDot =
        (mapStatus "BAD").2
    ∧ ((handleStatusUpdate 5 "BAD" sampleP1List).get ⟨1, by decide⟩).battery =
        (sampleP1List.get ⟨1, by decide⟩).battery := by
  have h1 := (handleStatusUpdate_frame 7 "BAD" sampleP1List).1 (by decide)
  have h2 := (handleStatusUpdate_frame 5 "BAD" sampleP1List).2.2 1 (by decide) (by decide)
  exact ⟨h1, (h2.2.2.2.2 (by decide)).2, h2.2.2.1⟩
